import Mathlib

/-
Verification of the reolink-automation pipeline (src/main.py, src/local_storage.py).

Shallow embedding conventions:
* Python `datetime.date` / `datetime.time` / `datetime.datetime` values are modelled by
  `Date`, `TimeOfDay`, `DateTime` below; Python compares them lexicographically by
  components, which `Date.ltb` / `TimeOfDay.ltb` / `DateTime.ltb` / `DateTime.leb` mirror.
* Motion dicts returned by `cam.get_motion_files` are modelled by `Motion`
  (`filename` = remote name, `start`, the tagged `channel`, and the query's stream type).
* The filesystem is an association list `FS` from path strings to byte counts; external
  effects (`cam.get_file`, `cam.get_motion_files`, Telegram sends) are oracles indexed by
  call number so that theorems quantify over every possible environment behaviour.
* Python `try/except` is embedded by making the handler part of the definition: a caught
  exception is an oracle value consumed by the corresponding branch, so the embedded
  functions are total exactly because the source catches at those boundaries.
* Delays (`time.sleep`), session login/logout, directory creation and the best-effort
  `chmod`/`chown` fix-ups are elided: they do not affect the values the claims are about
  (login is assumed to succeed, the chown failure branches only print).
-/

set_option autoImplicit false

namespace Reolink

/-- Model of `datetime.date` (year, month, day). -/
structure Date where
  year : Nat
  month : Nat
  day : Nat
deriving DecidableEq, Repr

/-- Model of `datetime.time` with second precision. -/
structure TimeOfDay where
  hour : Nat
  minute : Nat
  second : Nat
deriving DecidableEq, Repr

/-- Model of a timezone-naive `datetime.datetime` with second precision. -/
structure DateTime where
  date : Date
  time : TimeOfDay
deriving DecidableEq, Repr

/-- Python `date.__lt__`: lexicographic on (year, month, day). -/
def Date.ltb (a b : Date) : Bool :=
  decide (a.year < b.year) ||
    (decide (a.year = b.year) &&
      (decide (a.month < b.month) ||
        (decide (a.month = b.month) && decide (a.day < b.day))))

/-- Python `time.__lt__`: lexicographic on (hour, minute, second). -/
def TimeOfDay.ltb (a b : TimeOfDay) : Bool :=
  decide (a.hour < b.hour) ||
    (decide (a.hour = b.hour) &&
      (decide (a.minute < b.minute) ||
        (decide (a.minute = b.minute) && decide (a.second < b.second))))

/-- Python `datetime.__lt__`: lexicographic, date first, then time of day. -/
def DateTime.ltb (a b : DateTime) : Bool :=
  Date.ltb a.date b.date || (decide (a.date = b.date) && TimeOfDay.ltb a.time b.time)

/-- Python `datetime.__le__`, i.e. strictly-less or equal. -/
def DateTime.leb (a b : DateTime) : Bool :=
  DateTime.ltb a b || decide (a = b)

theorem Date.ltb_asymm (a b : Date) (h1 : Date.ltb a b = true)
    (h2 : Date.ltb b a = true) : False := by
  simp only [Date.ltb, Bool.or_eq_true, Bool.and_eq_true, decide_eq_true_eq] at h1 h2
  omega

/-- Stream quality ('main' vs 'sub' in the query parameters). -/
inductive StreamQuality
  | primary
  | secondary
deriving DecidableEq, Repr

/-- A discovered motion event: the dict produced by `cam.get_motion_files` after the
pipeline tags it with `motion['channel'] = ...`. -/
structure Motion where
  filename : String
  start : DateTime
  channel : Nat
  streamQuality : StreamQuality
deriving DecidableEq, Repr

/-- One record of `download_times.json` after `datetime.strptime(tr['start'], '%H:%M')`:
start and end times of day, minute precision. -/
structure WindowEntry where
  startHour : Nat
  startMin : Nat
  endHour : Nat
  endMin : Nat
deriving DecidableEq, Repr

/-- `dt.combine(target_date, dt.strptime(tr['start'], '%H:%M').time())` in
`filter_motions_by_time_windows` (src/main.py:423). -/
def windowStart (d : Date) (w : WindowEntry) : DateTime :=
  ⟨d, ⟨w.startHour, w.startMin, 0⟩⟩

/-- `dt.combine(target_date, dt.strptime(tr['end'], '%H:%M').time())` (src/main.py:424). -/
def windowEnd (d : Date) (w : WindowEntry) : DateTime :=
  ⟨d, ⟨w.endHour, w.endMin, 0⟩⟩

/-- The `window_ranges` list built in `filter_motions_by_time_windows`
(src/main.py:421-425). -/
def window_ranges (d : Date) (tws : List WindowEntry) : List (DateTime × DateTime) :=
  tws.map (fun w => (windowStart d w, windowEnd d w))

/-- The inner loop `for win_start, win_end in window_ranges: if win_start <= mstart < win_end`
with its `break` (src/main.py:430-433): true iff some window half-open-contains the start. -/
def motion_in_windows (m : Motion) (rs : List (DateTime × DateTime)) : Bool :=
  rs.any (fun r => DateTime.leb r.1 m.start && DateTime.ltb m.start r.2)

/-- `filter_motions_by_time_windows(motions, target_date, time_windows)`
(src/main.py:414-435). -/
def filter_motions_by_time_windows (motions : List Motion) (d : Date)
    (tws : List WindowEntry) : List Motion :=
  motions.filter (fun m => motion_in_windows m (window_ranges d tws))

/-- An event whose start date differs from the anchor date is in no anchored window:
both window bounds carry date `d`, and datetime comparison looks at the date first. -/
theorem anchored_window_excludes (a : DateTime) (d : Date) (t1 t2 : TimeOfDay)
    (hne : a.date ≠ d)
    (hle : DateTime.leb ⟨d, t1⟩ a = true)
    (hlt : DateTime.ltb a ⟨d, t2⟩ = true) : False := by
  simp only [DateTime.leb, DateTime.ltb, Bool.or_eq_true, Bool.and_eq_true,
    decide_eq_true_eq] at hle hlt
  have hda : Date.ltb a.date d = true := by
    rcases hlt with h | ⟨h, -⟩
    · exact h
    · exact absurd h hne
  rcases hle with (h | ⟨h, -⟩) | h
  · exact Date.ltb_asymm a.date d hda h
  · exact hne h.symm
  · exact hne (congrArg DateTime.date h.symm)

/-! ### strftime and storage paths -/

/-- Zero-padding to two digits, as `%m`, `%d`, `%H`, `%M`, `%S` produce. -/
def pad2 (n : Nat) : String :=
  if n < 10 then "0" ++ toString n else toString n

/-- Zero-padding to four digits, as `%Y` produces for the years at hand. -/
def pad4 (n : Nat) : String :=
  if n < 10 then "000" ++ toString n
  else if n < 100 then "00" ++ toString n
  else if n < 1000 then "0" ++ toString n
  else toString n

/-- `date.strftime("%Y-%m-%d")`. -/
def Date.strftimeYMD (d : Date) : String :=
  pad4 d.year ++ "-" ++ pad2 d.month ++ "-" ++ pad2 d.day

/-- `mstart.strftime("%Y-%m-%d %H-%M-%S")` (src/main.py:69, 264). -/
def DateTime.strftimeKey (t : DateTime) : String :=
  Date.strftimeYMD t.date ++ " " ++ pad2 t.time.hour ++ "-" ++ pad2 t.time.minute
    ++ "-" ++ pad2 t.time.second

/-- The module constant of src/local_storage.py:6. -/
def LOCAL_STORAGE_PATH : String :=
  "/mnt/data/nextcloud/data/bao/files/Photos/reolink-cams/e1"

/-- `os.path.join a b` for the relative second components used here
(none of the joined filenames starts with a slash). -/
def joinPath (a b : String) : String := a ++ "/" ++ b

/-- `os.path.basename` for the paths used here: the part after the last slash
(the whole string when it contains no slash). -/
def basename (p : String) : String :=
  ⟨p.data.foldl (fun acc c => if c = '/' then [] else acc ++ [c]) []⟩

/-- The storage path computed by `ensure_storage_directory` (src/local_storage.py:8-19):
`LOCAL_STORAGE_PATH/<YYYY-MM-DD>` when a date is given (directory creation, chmod and
chown are side effects elided here). -/
def ensure_storage_path : Option Date → String
  | some d => joinPath LOCAL_STORAGE_PATH (Date.strftimeYMD d)
  | none => LOCAL_STORAGE_PATH

/-- `get_local_filepath(filename, date)` (src/local_storage.py:110-119). -/
def get_local_filepath (filename : String) : Option Date → String
  | some d => joinPath (joinPath LOCAL_STORAGE_PATH (Date.strftimeYMD d)) filename
  | none => joinPath LOCAL_STORAGE_PATH filename

/-- The `filepath` computed inside `local_file_exists` (src/local_storage.py:102-106);
the source duplicates the path formula rather than calling `get_local_filepath`. -/
def local_file_exists_filepath (filename : String) : Option Date → String
  | some d => joinPath (joinPath LOCAL_STORAGE_PATH (Date.strftimeYMD d)) filename
  | none => joinPath LOCAL_STORAGE_PATH filename

/-- `output_filename` as computed in `download_motion_files` (src/main.py:69):
the channel suffix is the literal `"_ch0"`. -/
def output_filename_dmf (m : Motion) : String :=
  DateTime.strftimeKey m.start ++ "_ch0.mp4"

/-- `output_filename` as computed in `process_date_range` (src/main.py:264) and
`process_date_with_window_filter` (src/main.py:327): f-string with the tagged channel. -/
def output_filename_pdr (m : Motion) : String :=
  DateTime.strftimeKey m.start ++ "_ch" ++ toString m.channel ++ ".mp4"

/-! ### Filesystem model -/

/-- The filesystem: a finite map from path strings to file sizes in bytes. -/
abbrev FS := List (String × Nat)

/-- Content (byte count) of the file at `p`, if any. -/
def FS.get : FS → String → Option Nat
  | [], _ => none
  | e :: t, p => if e.1 = p then some e.2 else FS.get t p

/-- `os.path.isfile`. -/
def FS.isfile (fs : FS) (p : String) : Bool := (FS.get fs p).isSome

/-- Remove every entry for path `p` (`os.remove` / the overwritten half of a move). -/
def FS.eraseKey : FS → String → FS
  | [], _ => []
  | e :: t, p => if e.1 = p then FS.eraseKey t p else e :: FS.eraseKey t p

/-- Set the file at `p` to `v` (`none` deletes, `some n` writes `n` bytes). -/
def FS.set (fs : FS) (p : String) (v : Option Nat) : FS :=
  match v with
  | none => FS.eraseKey fs p
  | some n => (p, n) :: FS.eraseKey fs p

theorem FS.get_eraseKey_self (fs : FS) (p : String) :
    FS.get (FS.eraseKey fs p) p = none := by
  induction fs with
  | nil => rfl
  | cons e t ih =>
    by_cases h : e.1 = p <;> simp [FS.eraseKey, FS.get, h, ih]

theorem FS.get_eraseKey_other (fs : FS) (p q : String) (h : q ≠ p) :
    FS.get (FS.eraseKey fs p) q = FS.get fs q := by
  induction fs with
  | nil => rfl
  | cons e t ih =>
    have hpq : p ≠ q := fun hq => h hq.symm
    by_cases he : e.1 = p
    · simp [FS.eraseKey, FS.get, he, hpq, ih]
    · by_cases heq : e.1 = q <;> simp [FS.eraseKey, FS.get, he, heq, hpq, h, ih]

theorem FS.get_set_self (fs : FS) (p : String) (v : Option Nat) :
    FS.get (FS.set fs p v) p = v := by
  cases v with
  | none => exact FS.get_eraseKey_self fs p
  | some n => simp [FS.set, FS.get]

theorem FS.get_set_other (fs : FS) (p q : String) (v : Option Nat) (h : q ≠ p) :
    FS.get (FS.set fs p v) q = FS.get fs q := by
  cases v with
  | none => exact FS.get_eraseKey_other fs p q h
  | some n =>
    have : p ≠ q := fun hq => h hq.symm
    simp [FS.set, FS.get, this, FS.get_eraseKey_other fs p q h]

theorem FS.isfile_set_none (fs : FS) (p : String) :
    FS.isfile (FS.set fs p none) p = false := by
  simp [FS.isfile, FS.get_set_self]

/-- `local_file_exists(filename, date)` (src/local_storage.py:97-108). -/
def local_file_exists (fs : FS) (filename : String) (date : Option Date) : Bool :=
  FS.isfile fs (local_file_exists_filepath filename date)

/-- `save_to_local_storage(filepath, date)` (src/local_storage.py:41-95).
Returns the committed path (`None` on a missing source) and the new filesystem.
The exception handler around the body, the chmod/chown fix-up (best-effort, failures
only print) and `os.path.getsize` are elided: none of the modelled operations raise. -/
def save_to_local_storage (fs : FS) (filepath : String) (date : Option Date) :
    Option String × FS :=
  if FS.isfile fs filepath = false then (none, fs)
  else
    let destination := joinPath (ensure_storage_path date) (basename filepath)
    if FS.isfile fs destination then
      (some destination, FS.set fs filepath none)
    else
      (some destination, FS.set (FS.set fs filepath none) destination (FS.get fs filepath))

/-! ### Transfer executor (download_to_local_storage / download_motion_files) -/

/-- The exception classes distinguished by the retry ladders:
`requests.exceptions.ReadTimeout`, `requests.exceptions.RequestException`, and any
other `Exception` (src/local_storage.py:179-201, src/main.py:132-169). -/
inductive ErrKind
  | timeout
  | transport
  | other
deriving DecidableEq, Repr

/-- One possible behaviour of a `cam.get_file(fname, output_path=...)` call:
it either returns normally (`ret`) or raises (`exn k`), and in both cases `file` is the
state of the destination file after the call (`none`: nothing written, `some n`: a file
of `n` bytes — a streaming download that dies mid-transfer can leave partial bytes). -/
inductive FetchStep
  | ret (file : Option Nat)
  | exn (k : ErrKind) (file : Option Nat)
deriving DecidableEq, Repr

/-- Destination-file state left behind by a fetch step. -/
def FetchStep.file : FetchStep → Option Nat
  | .ret f => f
  | .exn _ f => f

/-- Which `except` branch of the retry ladder handled a failed attempt. -/
inductive FailClass
  | timeout
  | transport
  | unexpected
deriving DecidableEq, Repr

def ErrKind.toClass : ErrKind → FailClass
  | .timeout => .timeout
  | .transport => .transport
  | .other => .unexpected

/-- Executor state threaded through the transfer code: the filesystem, the number of
`cam.get_file` calls made so far (indexing the fetch oracle), and the log of failure
classifications (which `except` branch ran, in order). -/
structure TState where
  fs : FS
  fetchCount : Nat
  classLog : List FailClass
deriving DecidableEq, Repr

/-- The retry loop of `download_to_local_storage` (src/local_storage.py:149-203), with
`fuel` = remaining attempts. Each iteration calls `cam.get_file`; a normal return with
the file present is a success (chmod/chown best-effort fix-up elided); a normal return
with no file raises `Exception("Download completed but file not found")`, which the
`except Exception` branch catches (class `unexpected`); a raising fetch is caught by the
branch for its class. Exhausted fuel returns `none` (the function's `return None`). -/
def dlAttempts (beh : Nat → FetchStep) (dest : String) :
    Nat → TState → Option String × TState
  | 0, s => (none, s)
  | fuel + 1, s =>
    match beh s.fetchCount with
    | FetchStep.ret (some n) =>
      (some dest, ⟨FS.set s.fs dest (some n), s.fetchCount + 1, s.classLog⟩)
    | FetchStep.ret none =>
      dlAttempts beh dest fuel
        ⟨FS.set s.fs dest none, s.fetchCount + 1, s.classLog ++ [FailClass.unexpected]⟩
    | FetchStep.exn k file =>
      dlAttempts beh dest fuel
        ⟨FS.set s.fs dest file, s.fetchCount + 1, s.classLog ++ [ErrKind.toClass k]⟩

/-- `download_to_local_storage(cam, fname, output_filename, date, max_retries, retry_delay)`
(src/local_storage.py:121-203): computes the destination via `get_local_filepath`,
returns it immediately when the file already exists, otherwise runs the retry loop.
Directory creation and the writability check are elided (assumed to pass). -/
def download_to_local_storage (beh : Nat → FetchStep) (output_filename : String)
    (date : Option Date) (maxRetries : Nat) (s : TState) : Option String × TState :=
  let local_filepath := get_local_filepath output_filename date
  if FS.isfile s.fs local_filepath then (some local_filepath, s)
  else dlAttempts beh local_filepath maxRetries s

/-- The outer `while attempt < max_retries` loop of `download_motion_files`
(src/main.py:77-169): each iteration opens a fresh camera session (login assumed to
succeed) and calls `download_to_local_storage` with the same `max_retries`; a truthy
result breaks out, a falsy one increments the attempt counter and retries. All
exceptions raised inside the iteration are caught by its own `except` ladder. -/
def outerLoop (beh : Nat → FetchStep) (output_filename : String) (date : Option Date)
    (innerMax : Nat) : Nat → TState → Option String × TState
  | 0, s => (none, s)
  | fuel + 1, s =>
    let r := download_to_local_storage beh output_filename date innerMax s
    match r.1 with
    | some p => (some p, r.2)
    | none => outerLoop beh output_filename date innerMax fuel r.2

/-- Per-event result of the transfer phase. -/
inductive Status
  | skipped
  | downloaded (path : String)
  | failed
deriving DecidableEq, Repr

/-- The outcome recorded for one motion: its artifact key and what happened. -/
structure Outcome where
  key : String
  status : Status
deriving DecidableEq, Repr

/-- The per-motion body of `download_motion_files` (src/main.py:66-169): derive the
artifact key from the start time (channel suffix hard-coded to `_ch0`), the dedup check
via `local_file_exists(output_filename, target_date)` with `target_date = mstart.date()`,
then the outer retry loop. -/
def processMotion (beh : Nat → FetchStep) (maxRetries : Nat) (m : Motion) (s : TState) :
    Outcome × TState :=
  if local_file_exists s.fs (output_filename_dmf m) (some m.start.date) then
    (⟨output_filename_dmf m, Status.skipped⟩, s)
  else
    let r := outerLoop beh (output_filename_dmf m) (some m.start.date) maxRetries maxRetries s
    match r.1 with
    | some p => (⟨output_filename_dmf m, Status.downloaded p⟩, r.2)
    | none => (⟨output_filename_dmf m, Status.failed⟩, r.2)

/-- `download_motion_files(motions, max_retries, retry_delay)` (src/main.py:60-169):
processes the motions sequentially in list order, threading the filesystem state, and
returns the per-event outcomes in that order. -/
def download_motion_files (beh : Nat → FetchStep) (maxRetries : Nat) :
    List Motion → TState → List Outcome × TState
  | [], s => ([], s)
  | m :: ms, s =>
    ((processMotion beh maxRetries m s).1 ::
        (download_motion_files beh maxRetries ms (processMotion beh maxRetries m s).2).1,
      (download_motion_files beh maxRetries ms (processMotion beh maxRetries m s).2).2)

/-! ### Event discovery (get_all_motion_files_for_date) -/

/-- One possible behaviour of an attempt's `cam.get_motion_files` query (including the
session login wrapped in the same `try`): it returns a list of motion dicts, or raises
(`raise` covers both a login failure caught by the outer `except` and a query failure
caught by the inner `except` — both leave the accumulator unchanged and move on to the
next attempt). -/
inductive QueryResult
  | ok (motions : List Motion)
  | raise
deriving Repr

/-- The `motion['channel'] = 0` tagging loop (src/main.py:383-384). -/
def tagChannel0 (ms : List Motion) : List Motion :=
  ms.map (fun m => { m with channel := 0 })

/-- The `for attempt in range(max_retries)` loop of `get_all_motion_files_for_date`
(src/main.py:354-412), with `fuel` = remaining attempts, `i` = attempt index and `acc`
= `all_motions`. A successful query extends `all_motions` with the channel-tagged
results and returns them if nonempty; otherwise (or on an exception) the next attempt
runs; exhausting the budget returns the accumulator (src/main.py:412). The indexing
delay and retry sleeps are elided. -/
def gamLoop (beh : Nat → QueryResult) : Nat → Nat → List Motion → List Motion
  | 0, _, acc => acc
  | fuel + 1, i, acc =>
    match beh i with
    | QueryResult.ok ms =>
      if (acc ++ tagChannel0 ms).isEmpty then gamLoop beh fuel (i + 1) (acc ++ tagChannel0 ms)
      else acc ++ tagChannel0 ms
    | QueryResult.raise => gamLoop beh fuel (i + 1) acc

/-- `get_all_motion_files_for_date(target_date, max_retries=3, retry_delay=30)`
(src/main.py:346-412). -/
def get_all_motion_files_for_date (beh : Nat → QueryResult) (maxRetries : Nat) :
    List Motion :=
  gamLoop beh maxRetries 0 []

/-! ### Notification adapter and the single-date run -/

/-- Behaviour of one `bot.send_message` call: delivered, or raised with a message. -/
inductive SendResult
  | ok
  | err (msg : String)
deriving DecidableEq, Repr

/-- `send_telegram_message(message)` (src/main.py:173-181): the whole send is inside
`try/except Exception`, so the adapter always returns normally, producing only a log
line; a raising send is logged, never propagated. -/
def send_telegram_message : SendResult → List String
  | SendResult.ok => ["Telegram notification sent."]
  | SendResult.err m => ["Failed to send Telegram message: " ++ m]

/-- The single-date branch of `__main__` (src/main.py:496-505): start notification,
discovery, window filter, a progress notification only when there is work, the transfer
phase, then the success notification. Returns the pipeline result (outcomes and final
filesystem state) together with the accumulated notification log. -/
def runToday (sendBeh : Nat → SendResult) (queryBeh : Nat → QueryResult)
    (fetchBeh : Nat → FetchStep) (today : Date) (tws : List WindowEntry) (s : TState) :
    (List Outcome × TState) × List String :=
  let log0 := send_telegram_message (sendBeh 0)
  let motions := get_all_motion_files_for_date queryBeh 3
  let filtered := filter_motions_by_time_windows motions today tws
  let log1 := if 0 < filtered.length then send_telegram_message (sendBeh 1) else []
  let r := download_motion_files fetchBeh 5 filtered s
  let log2 := send_telegram_message (sendBeh 2)
  (r, log0 ++ log1 ++ log2)

/-! ### Claim C2: window filter membership -/

/-- Claim C2: for every list of events, date and window list, the filter keeps an event
iff it is in the input and some configured window, anchored to the given date,
half-open-contains its start time; in particular an event whose start lies on a
different date than the anchor is excluded. -/
theorem window_filter_mem_iff : ∀ (motions : List Motion) (d : Date)
    (tws : List WindowEntry) (m : Motion),
    (m ∈ filter_motions_by_time_windows motions d tws ↔
      m ∈ motions ∧ ∃ w ∈ tws,
        DateTime.leb (windowStart d w) m.start = true ∧
        DateTime.ltb m.start (windowEnd d w) = true) ∧
    (m.start.date ≠ d → m ∉ filter_motions_by_time_windows motions d tws) := by
  intro motions d tws m
  have hiff : m ∈ filter_motions_by_time_windows motions d tws ↔
      m ∈ motions ∧ ∃ w ∈ tws,
        DateTime.leb (windowStart d w) m.start = true ∧
        DateTime.ltb m.start (windowEnd d w) = true := by
    simp [filter_motions_by_time_windows, List.mem_filter, motion_in_windows,
      window_ranges, List.any_eq_true, Bool.and_eq_true]
  refine ⟨hiff, fun hne hmem => ?_⟩
  obtain ⟨-, w, -, hle, hlt⟩ := hiff.mp hmem
  exact anchored_window_excludes m.start d _ _ hne hle hlt

def c2Date : Date := ⟨2024, 1, 5⟩

def c2Motion : Motion :=
  ⟨"Rec_001.mp4", ⟨⟨2024, 1, 6⟩, ⟨8, 30, 0⟩⟩, 0, StreamQuality.primary⟩

def c2Window : WindowEntry := ⟨8, 0, 9, 0⟩

/-- Witness for C2: an event starting 2024-01-06 08:30 is excluded by an 08:00-09:00
window anchored to 2024-01-05, even though its time of day lies inside the window. -/
theorem window_filter_mem_iff_witness :
    c2Motion ∉ filter_motions_by_time_windows [c2Motion] c2Date [c2Window] :=
  (window_filter_mem_iff [c2Motion] c2Date [c2Window] c2Motion).2 (by decide)

/-! ### Claim C10: all storage paths for an event coincide -/

/-- Claim C10: the dedup existence check (`local_file_exists`), the download destination
(`get_local_filepath`, used by `download_to_local_storage`) and the final write target
all resolve to `LOCAL_STORAGE_PATH/<YYYY-MM-DD>/<artifactKey>`, with the date
subdirectory derived from the event's start-time date; moreover the transfer phase
skips an event exactly when a file exists at that shared path. -/
theorem storage_paths_agree : ∀ (f : String) (d : Date) (fs : FS) (m : Motion)
    (beh : Nat → FetchStep) (maxRetries : Nat) (s : TState),
    local_file_exists_filepath f (some d) = get_local_filepath f (some d) ∧
    local_file_exists fs f (some d) = FS.isfile fs (get_local_filepath f (some d)) ∧
    get_local_filepath (output_filename_dmf m) (some m.start.date) =
      LOCAL_STORAGE_PATH ++ "/" ++ Date.strftimeYMD m.start.date ++ "/"
        ++ output_filename_dmf m ∧
    ((processMotion beh maxRetries m s).1.status = Status.skipped ↔
      FS.isfile s.fs (get_local_filepath (output_filename_dmf m) (some m.start.date))
        = true) := by
  intro f d fs m beh maxRetries s
  refine ⟨rfl, rfl, by simp [get_local_filepath, joinPath, String.append_assoc], ?_⟩
  constructor
  · intro hsk
    by_contra hex
    have hfalse : local_file_exists s.fs (output_filename_dmf m) (some m.start.date)
        = false := by
      simpa [local_file_exists, local_file_exists_filepath, get_local_filepath,
        Bool.not_eq_true] using hex
    rw [processMotion, hfalse] at hsk
    simp only [Bool.false_eq_true, if_false] at hsk
    cases hr : (outerLoop beh (output_filename_dmf m) (some m.start.date)
        maxRetries maxRetries s).1 <;> rw [hr] at hsk <;> simp at hsk
  · intro hex
    have htrue : local_file_exists s.fs (output_filename_dmf m) (some m.start.date)
        = true := by
      simpa [local_file_exists, local_file_exists_filepath, get_local_filepath] using hex
    rw [processMotion, htrue]
    rfl

/-! ### Claim C3: artifact key determinism -/

theorem gamLoop_channel0 (beh : Nat → QueryResult) : ∀ (fuel i : Nat) (acc : List Motion),
    (∀ m ∈ acc, m.channel = 0) → ∀ m ∈ gamLoop beh fuel i acc, m.channel = 0 := by
  intro fuel
  induction fuel with
  | zero => intro i acc hacc m hm; exact hacc m hm
  | succ n ih =>
    intro i acc hacc m hm
    have hext : ∀ ms : List Motion, ∀ x ∈ acc ++ tagChannel0 ms, x.channel = 0 := by
      intro ms x hx
      rcases List.mem_append.mp hx with h | h
      · exact hacc x h
      · obtain ⟨y, -, rfl⟩ := List.mem_map.mp h
        rfl
    cases hq : beh i with
    | ok ms =>
      simp only [gamLoop, hq] at hm
      by_cases he : (acc ++ tagChannel0 ms).isEmpty = true
      · rw [if_pos he] at hm
        exact ih (i + 1) (acc ++ tagChannel0 ms) (hext ms) m hm
      · rw [if_neg he] at hm
        exact hext ms m hm
    | raise =>
      simp only [gamLoop, hq] at hm
      exact ih (i + 1) acc hacc m hm

/-- Every event returned by discovery carries channel 0 (src/main.py:383-384). -/
theorem discovery_channel0 (beh : Nat → QueryResult) (n : Nat) :
    ∀ m ∈ get_all_motion_files_for_date beh n, m.channel = 0 :=
  gamLoop_channel0 beh n 0 [] (by intro m hm; cases hm)

/-- Claim C3: both artifact key derivations depend only on `(startTime, channel)` —
identical start times and channels give identical keys regardless of `remoteName` or
`streamQuality`; the `process_date_range` key embeds the event's channel number, and
every event the pipeline's discovery produces has channel 0, so the hard-coded `_ch0`
suffix of `download_motion_files` also embeds that event's channel number. -/
theorem artifact_key_deterministic :
    (∀ m1 m2 : Motion, m1.start = m2.start → m1.channel = m2.channel →
      output_filename_dmf m1 = output_filename_dmf m2 ∧
      output_filename_pdr m1 = output_filename_pdr m2) ∧
    (∀ m : Motion, output_filename_pdr m =
      DateTime.strftimeKey m.start ++ "_ch" ++ toString m.channel ++ ".mp4") ∧
    (∀ (beh : Nat → QueryResult) (n : Nat), ∀ m ∈ get_all_motion_files_for_date beh n,
      m.channel = 0 ∧ output_filename_dmf m =
        DateTime.strftimeKey m.start ++ "_ch" ++ toString m.channel ++ ".mp4") := by
  refine ⟨?_, fun m => rfl, ?_⟩
  · intro m1 m2 hs hc
    constructor
    · simp [output_filename_dmf, hs]
    · simp [output_filename_pdr, hs, hc]
  · intro beh n m hm
    have hc : m.channel = 0 := discovery_channel0 beh n m hm
    refine ⟨hc, ?_⟩
    rw [hc]
    have h0 : "_ch" ++ (toString (0 : Nat) ++ ".mp4") = "_ch0.mp4" := by decide
    simp [output_filename_dmf, String.append_assoc, h0]

def c3Motion1 : Motion :=
  ⟨"Mp4Record/2024-01-05/RecM01.mp4", ⟨⟨2024, 1, 5⟩, ⟨8, 30, 12⟩⟩, 1,
    StreamQuality.primary⟩

def c3Motion2 : Motion :=
  ⟨"Mp4Record/2024-01-05/RecS99.mp4", ⟨⟨2024, 1, 5⟩, ⟨8, 30, 12⟩⟩, 1,
    StreamQuality.secondary⟩

/-- Witness for C3: two events equal in `(startTime, channel)` but different in remote
name and stream quality produce identical keys under both derivations. -/
theorem artifact_key_deterministic_witness :
    output_filename_dmf c3Motion1 = output_filename_dmf c3Motion2 ∧
    output_filename_pdr c3Motion1 = output_filename_pdr c3Motion2 :=
  artifact_key_deterministic.1 c3Motion1 c3Motion2 rfl rfl

/-! ### Claim C5: exhausted or empty discovery returns the empty sequence -/

theorem gamLoop_empty (beh : Nat → QueryResult) : ∀ (fuel i : Nat),
    (∀ j, i ≤ j → j < i + fuel →
      beh j = QueryResult.raise ∨ beh j = QueryResult.ok []) →
    gamLoop beh fuel i [] = [] := by
  intro fuel
  induction fuel with
  | zero => intro _i _; rfl
  | succ n ih =>
    intro i h
    have hnext : ∀ j, i + 1 ≤ j → j < (i + 1) + n →
        beh j = QueryResult.raise ∨ beh j = QueryResult.ok [] := by
      intro j h1 h2
      exact h j (by omega) (by omega)
    rcases h i (Nat.le_refl i) (by omega) with hq | hq
    · simp only [gamLoop, hq]
      exact ih (i + 1) hnext
    · simp only [gamLoop, hq, tagChannel0, List.map_nil, List.append_nil,
        List.isEmpty_nil, if_true]
      exact ih (i + 1) hnext

/-- Claim C5: when every attempt of the retry budget either raises or returns zero
results, discovery returns the empty list — a value, not an exception (every raising
query is consumed by the `except` branches inside `get_all_motion_files_for_date`). -/
theorem discovery_exhaustion_empty : ∀ (beh : Nat → QueryResult) (maxRetries : Nat),
    (∀ i, i < maxRetries → beh i = QueryResult.raise ∨ beh i = QueryResult.ok []) →
    get_all_motion_files_for_date beh maxRetries = [] := by
  intro beh maxRetries h
  exact gamLoop_empty beh maxRetries 0 (fun j _ hj => h j (by omega))

/-- Witness for C5: a query raising on every one of the default 3 attempts yields `[]`. -/
theorem discovery_exhaustion_empty_witness :
    get_all_motion_files_for_date (fun _ => QueryResult.raise) 3 = [] :=
  discovery_exhaustion_empty (fun _ => QueryResult.raise) 3 (fun _ _ => Or.inl rfl)

/-! ### Claim C6: put with an existing destination is a success-no-op -/

/-- Claim C6: when the destination artifact already exists, `save_to_local_storage`
returns the destination path as success, leaves the destination file untouched, and
discards the source temporary file. -/
theorem put_existing_dest_noop : ∀ (fs : FS) (filepath : String) (date : Option Date),
    FS.isfile fs filepath = true →
    FS.isfile fs (joinPath (ensure_storage_path date) (basename filepath)) = true →
    filepath ≠ joinPath (ensure_storage_path date) (basename filepath) →
    (save_to_local_storage fs filepath date).1 =
      some (joinPath (ensure_storage_path date) (basename filepath)) ∧
    FS.get (save_to_local_storage fs filepath date).2
        (joinPath (ensure_storage_path date) (basename filepath)) =
      FS.get fs (joinPath (ensure_storage_path date) (basename filepath)) ∧
    FS.isfile (save_to_local_storage fs filepath date).2 filepath = false := by
  intro fs filepath date hsrc hdest hne
  have hres : save_to_local_storage fs filepath date =
      (some (joinPath (ensure_storage_path date) (basename filepath)),
        FS.set fs filepath none) := by
    rw [save_to_local_storage]
    rw [hsrc]
    simp only [Bool.true_eq_false, if_false]
    rw [if_pos hdest]
  rw [hres]
  refine ⟨rfl, ?_, ?_⟩
  · exact FS.get_set_other fs filepath _ none (fun h => hne h.symm)
  · exact FS.isfile_set_none fs filepath

/-- Witness for C6: committing `tmp.mp4` while the destination already holds a 5-byte
artifact succeeds, keeps the 5-byte destination, and removes the source. -/
theorem put_existing_dest_noop_witness :
    (save_to_local_storage
        [("tmp.mp4", 7), (joinPath (ensure_storage_path none) "tmp.mp4", 5)]
        "tmp.mp4" none).1 =
      some (joinPath (ensure_storage_path none) (basename "tmp.mp4")) ∧
    FS.get (save_to_local_storage
        [("tmp.mp4", 7), (joinPath (ensure_storage_path none) "tmp.mp4", 5)]
        "tmp.mp4" none).2
        (joinPath (ensure_storage_path none) (basename "tmp.mp4")) =
      FS.get [("tmp.mp4", 7), (joinPath (ensure_storage_path none) "tmp.mp4", 5)]
        (joinPath (ensure_storage_path none) (basename "tmp.mp4")) ∧
    FS.isfile (save_to_local_storage
        [("tmp.mp4", 7), (joinPath (ensure_storage_path none) "tmp.mp4", 5)]
        "tmp.mp4" none).2 "tmp.mp4" = false :=
  put_existing_dest_noop
    [("tmp.mp4", 7), (joinPath (ensure_storage_path none) "tmp.mp4", 5)]
    "tmp.mp4" none (by decide) (by decide) (by decide)

/-! ### Claim C8: ordering -/

theorem processMotion_key (beh : Nat → FetchStep) (maxRetries : Nat) (m : Motion)
    (s : TState) : (processMotion beh maxRetries m s).1.key = output_filename_dmf m := by
  rw [processMotion]
  split
  · rfl
  · generalize outerLoop beh (output_filename_dmf m) (some m.start.date)
      maxRetries maxRetries s = r
    obtain ⟨r1, s2⟩ := r
    cases r1 <;> rfl

theorem download_keys (beh : Nat → FetchStep) (maxRetries : Nat) :
    ∀ (ms : List Motion) (s : TState),
    (download_motion_files beh maxRetries ms s).1.map Outcome.key =
      ms.map output_filename_dmf := by
  intro ms
  induction ms with
  | nil => intro s; rfl
  | cons m t ih =>
    intro s
    simp [download_motion_files, processMotion_key, ih]

/-- Claim C8: the window filter returns an order-preserving subsequence of its input,
and the transfer phase processes the surviving events in exactly that order — the
outcome list produced by `download_motion_files` lines up index-by-index with the
filtered input, with no re-sorting by time across channels. -/
theorem processing_order_preserved : ∀ (motions : List Motion) (d : Date)
    (tws : List WindowEntry) (beh : Nat → FetchStep) (maxRetries : Nat) (s : TState),
    (filter_motions_by_time_windows motions d tws).Sublist motions ∧
    (download_motion_files beh maxRetries
        (filter_motions_by_time_windows motions d tws) s).1.map Outcome.key =
      (filter_motions_by_time_windows motions d tws).map output_filename_dmf := by
  intro motions d tws beh maxRetries s
  exact ⟨List.filter_sublist motions, download_keys beh maxRetries _ s⟩

/-! ### Claim C9: notification failures are isolated -/

/-- Claim C9: a raising `bot.send_message` is caught inside `send_telegram_message` and
turns into a log line (the adapter is a total function into log output), and the
pipeline portion of a run — per-event outcomes and final storage state — is identical
for any two notification behaviours: notification failures change nothing but the log. -/
theorem notification_isolated :
    (∀ msg, send_telegram_message (SendResult.err msg) =
      ["Failed to send Telegram message: " ++ msg]) ∧
    ∀ (sendBeh1 sendBeh2 : Nat → SendResult) (queryBeh : Nat → QueryResult)
      (fetchBeh : Nat → FetchStep) (today : Date) (tws : List WindowEntry) (s : TState),
      (runToday sendBeh1 queryBeh fetchBeh today tws s).1 =
        (runToday sendBeh2 queryBeh fetchBeh today tws s).1 :=
  ⟨fun _ => rfl, fun _ _ _ _ _ _ _ => rfl⟩

/-! ### Retry-loop lemmas for the transfer executor -/

/-- When every fetch leaves no file at the destination, the inner retry loop fails,
performs exactly `fuel` fetch calls, and leaves the destination absent. -/
theorem dlAttempts_clean (beh : Nat → FetchStep) (dest : String) :
    ∀ (fuel : Nat) (s : TState),
    (∀ i, (beh i).file = none) → FS.isfile s.fs dest = false →
    (dlAttempts beh dest fuel s).1 = none ∧
    (dlAttempts beh dest fuel s).2.fetchCount = s.fetchCount + fuel ∧
    FS.isfile (dlAttempts beh dest fuel s).2.fs dest = false := by
  intro fuel
  induction fuel with
  | zero => intro s _ hA; exact ⟨rfl, rfl, hA⟩
  | succ n ih =>
    intro s h hA
    cases hstep : beh s.fetchCount with
    | ret f =>
      have hf : f = none := by
        have hx := h s.fetchCount
        rw [hstep] at hx
        exact hx
      subst hf
      have hrec := ih ⟨FS.set s.fs dest none, s.fetchCount + 1,
        s.classLog ++ [FailClass.unexpected]⟩ h (FS.isfile_set_none s.fs dest)
      simp only [dlAttempts, hstep]
      refine ⟨hrec.1, ?_, hrec.2.2⟩
      rw [hrec.2.1]
      show s.fetchCount + 1 + n = s.fetchCount + (n + 1)
      omega
    | exn k f =>
      have hf : f = none := by
        have hx := h s.fetchCount
        rw [hstep] at hx
        exact hx
      subst hf
      have hrec := ih ⟨FS.set s.fs dest none, s.fetchCount + 1,
        s.classLog ++ [ErrKind.toClass k]⟩ h (FS.isfile_set_none s.fs dest)
      simp only [dlAttempts, hstep]
      refine ⟨hrec.1, ?_, hrec.2.2⟩
      rw [hrec.2.1]
      show s.fetchCount + 1 + n = s.fetchCount + (n + 1)
      omega

/-- The inner retry loop writes only at the destination path (for any fetch behaviour):
every other path keeps its content. -/
theorem dlAttempts_other (beh : Nat → FetchStep) (dest : String) :
    ∀ (fuel : Nat) (s : TState) (q : String), q ≠ dest →
    FS.get (dlAttempts beh dest fuel s).2.fs q = FS.get s.fs q := by
  intro fuel
  induction fuel with
  | zero => intro s q _; rfl
  | succ n ih =>
    intro s q hq
    cases hstep : beh s.fetchCount with
    | ret f =>
      cases f with
      | some b =>
        simp only [dlAttempts, hstep]
        exact FS.get_set_other s.fs dest q (some b) hq
      | none =>
        simp only [dlAttempts, hstep]
        rw [ih _ q hq]
        exact FS.get_set_other s.fs dest q none hq
    | exn k f =>
      simp only [dlAttempts, hstep]
      rw [ih _ q hq]
      exact FS.get_set_other s.fs dest q f hq

/-- When every fetch leaves no file, each outer attempt runs the full inner loop:
`fuel` outer attempts make `fuel * innerMax` fetch calls, fail, and leave the
destination absent. -/
theorem outerLoop_clean (beh : Nat → FetchStep) (ofn : String) (date : Option Date)
    (innerMax : Nat) : ∀ (fuel : Nat) (s : TState),
    (∀ i, (beh i).file = none) →
    FS.isfile s.fs (get_local_filepath ofn date) = false →
    (outerLoop beh ofn date innerMax fuel s).1 = none ∧
    (outerLoop beh ofn date innerMax fuel s).2.fetchCount
      = s.fetchCount + fuel * innerMax ∧
    FS.isfile (outerLoop beh ofn date innerMax fuel s).2.fs
      (get_local_filepath ofn date) = false := by
  intro fuel
  induction fuel with
  | zero => intro s _ hA; exact ⟨rfl, by simp [outerLoop], hA⟩
  | succ n ih =>
    intro s h hA
    have hdl := dlAttempts_clean beh (get_local_filepath ofn date) innerMax s h hA
    have hdown : download_to_local_storage beh ofn date innerMax s
        = dlAttempts beh (get_local_filepath ofn date) innerMax s := by
      rw [download_to_local_storage]
      simp only [hA, Bool.false_eq_true, if_false]
    have hstep : outerLoop beh ofn date innerMax (n + 1) s
        = outerLoop beh ofn date innerMax n
            (dlAttempts beh (get_local_filepath ofn date) innerMax s).2 := by
      simp only [outerLoop, hdown, hdl.1]
    rw [hstep]
    have hrec := ih (dlAttempts beh (get_local_filepath ofn date) innerMax s).2 h hdl.2.2
    refine ⟨hrec.1, ?_, hrec.2.2⟩
    rw [hrec.2.1, hdl.2.1]
    ring

/-- The outer retry loop also writes only at the destination path when every fetch
leaves no file there. -/
theorem outerLoop_other (beh : Nat → FetchStep) (ofn : String) (date : Option Date)
    (innerMax : Nat) : ∀ (fuel : Nat) (s : TState) (q : String),
    q ≠ get_local_filepath ofn date →
    FS.get (outerLoop beh ofn date innerMax fuel s).2.fs q = FS.get s.fs q := by
  intro fuel
  induction fuel with
  | zero => intro s q _; rfl
  | succ n ih =>
    intro s q hq
    by_cases hA : FS.isfile s.fs (get_local_filepath ofn date) = true
    · have hdown : download_to_local_storage beh ofn date innerMax s
          = (some (get_local_filepath ofn date), s) := by
        rw [download_to_local_storage]
        simp only [hA, if_true]
      simp only [outerLoop, hdown]
    · have hA2 : FS.isfile s.fs (get_local_filepath ofn date) = false := by
        simpa using hA
      have hdown : download_to_local_storage beh ofn date innerMax s
          = dlAttempts beh (get_local_filepath ofn date) innerMax s := by
        rw [download_to_local_storage]
        simp only [hA2, Bool.false_eq_true, if_false]
      cases hr : (dlAttempts beh (get_local_filepath ofn date) innerMax s).1 with
      | some p =>
        simp only [outerLoop, hdown, hr]
        exact dlAttempts_other beh _ innerMax s q hq
      | none =>
        simp only [outerLoop, hdown, hr]
        rw [ih _ q hq]
        exact dlAttempts_other beh _ innerMax s q hq

/-! ### Claim C1: retry bound of the transfer executor -/

def c1Beh : Nat → FetchStep := fun _ => FetchStep.exn ErrKind.timeout none

def c1Motion : Motion :=
  ⟨"Mp4Record/RecM01.mp4", ⟨⟨2024, 1, 5⟩, ⟨8, 30, 0⟩⟩, 0, StreamQuality.primary⟩

def c1State : TState := ⟨[], 0, []⟩

/-- Counterexample to C1 as stated: with a fetch that times out on every call (writing
nothing), the per-event executor makes 25 fetch attempts — `max_retries * max_retries`,
because `download_motion_files` retries `download_to_local_storage`, which runs its own
full `max_retries` loop per call — not exactly `maxRetries = 5`. -/
theorem download_retry_bound_counterexample :
    (processMotion c1Beh 5 c1Motion c1State).2.fetchCount = 25 ∧
    ¬ (processMotion c1Beh 5 c1Motion c1State).2.fetchCount = 5 := by
  constructor <;> decide

/-- Claim C1 (amended): for every motion event whose fetch fails on every attempt
leaving no file (e.g. always times out), the executor makes exactly
`maxRetries * maxRetries` fetch attempts (the outer per-event loop retries the inner
download routine, each call of which retries `maxRetries` times; 25 by default) and
then returns a failed outcome for that event; every raise is consumed by the `except`
ladders, so the executor returns a value for every behaviour. -/
theorem download_retry_bound_amended : ∀ (beh : Nat → FetchStep) (maxRetries : Nat)
    (m : Motion) (s : TState),
    (∀ i, (beh i).file = none) →
    FS.isfile s.fs (get_local_filepath (output_filename_dmf m) (some m.start.date))
      = false →
    (processMotion beh maxRetries m s).1 = ⟨output_filename_dmf m, Status.failed⟩ ∧
    (processMotion beh maxRetries m s).2.fetchCount
      = s.fetchCount + maxRetries * maxRetries := by
  intro beh maxRetries m s h hA
  have hO := outerLoop_clean beh (output_filename_dmf m) (some m.start.date)
    maxRetries maxRetries s h hA
  have hcheck : local_file_exists s.fs (output_filename_dmf m) (some m.start.date)
      = false := by
    simpa [local_file_exists, local_file_exists_filepath, get_local_filepath] using hA
  have hpm : processMotion beh maxRetries m s =
      (⟨output_filename_dmf m, Status.failed⟩,
        (outerLoop beh (output_filename_dmf m) (some m.start.date)
          maxRetries maxRetries s).2) := by
    rw [processMotion, hcheck]
    simp only [Bool.false_eq_true, if_false, hO.1]
  rw [hpm]
  exact ⟨rfl, hO.2.1⟩

/-- Witness for the amended C1 at the default budget: 0 + 5 * 5 fetch calls and a
failed outcome. -/
theorem download_retry_bound_amended_witness :
    (processMotion c1Beh 5 c1Motion c1State).1 =
      ⟨output_filename_dmf c1Motion, Status.failed⟩ ∧
    (processMotion c1Beh 5 c1Motion c1State).2.fetchCount = 0 + 5 * 5 :=
  download_retry_bound_amended c1Beh 5 c1Motion c1State (fun _ => rfl) (by decide)

/-! ### Claim C4: temporary file and commit discipline -/

def c4Beh : Nat → FetchStep := fun i =>
  if i < 24 then FetchStep.exn ErrKind.timeout none
  else FetchStep.exn ErrKind.timeout (some 5)

def c4Motion : Motion :=
  ⟨"Mp4Record/RecM02.mp4", ⟨⟨2024, 1, 5⟩, ⟨9, 15, 0⟩⟩, 0, StreamQuality.primary⟩

def c4State : TState := ⟨[], 0, []⟩

/-- Counterexample to C4 as stated: `download_to_local_storage` streams `cam.get_file`
directly into the destination path, so a final fetch attempt that dies mid-transfer
after writing 5 partial bytes leaves the transfer failed AND the destination artifact
present — the destination is not left absent on failure, and no temporary file ever
exists. -/
theorem transfer_temp_commit_counterexample :
    (processMotion c4Beh 5 c4Motion c4State).1.status = Status.failed ∧
    FS.isfile (processMotion c4Beh 5 c4Motion c4State).2.fs
      (get_local_filepath (output_filename_dmf c4Motion) (some c4Motion.start.date))
      = true := by
  constructor <;> decide

def c4CleanBeh : Nat → FetchStep := fun _ => FetchStep.exn ErrKind.transport none

def c4CleanState : TState := ⟨[("unrelated.txt", 3)], 0, []⟩

/-- Claim C4 (amended): the transfer writes fetched bytes directly to the final
destination path — there is no temporary file, and no path other than the destination
is ever touched; when every failed fetch attempt leaves no partial file at the
destination, a transfer that ends in failure leaves the destination artifact absent
(storage state unchanged on error). A failed attempt that does write partial bytes can
leave a partial artifact at the destination, as the counterexample shows. -/
theorem transfer_direct_write_amended : ∀ (beh : Nat → FetchStep) (maxRetries : Nat)
    (m : Motion) (s : TState) (q : String),
    (∀ i, (beh i).file = none) →
    FS.isfile s.fs (get_local_filepath (output_filename_dmf m) (some m.start.date))
      = false →
    (q ≠ get_local_filepath (output_filename_dmf m) (some m.start.date) →
      FS.get (processMotion beh maxRetries m s).2.fs q = FS.get s.fs q) ∧
    (processMotion beh maxRetries m s).1.status = Status.failed ∧
    FS.isfile (processMotion beh maxRetries m s).2.fs
      (get_local_filepath (output_filename_dmf m) (some m.start.date)) = false := by
  intro beh maxRetries m s q h hA
  have hO := outerLoop_clean beh (output_filename_dmf m) (some m.start.date)
    maxRetries maxRetries s h hA
  have hcheck : local_file_exists s.fs (output_filename_dmf m) (some m.start.date)
      = false := by
    simpa [local_file_exists, local_file_exists_filepath, get_local_filepath] using hA
  have hpm : processMotion beh maxRetries m s =
      (⟨output_filename_dmf m, Status.failed⟩,
        (outerLoop beh (output_filename_dmf m) (some m.start.date)
          maxRetries maxRetries s).2) := by
    rw [processMotion, hcheck]
    simp only [Bool.false_eq_true, if_false, hO.1]
  rw [hpm]
  exact ⟨fun hq => outerLoop_other beh (output_filename_dmf m) (some m.start.date)
    maxRetries maxRetries s q hq, rfl, hO.2.2⟩

/-- Witness for the amended C4: a clean always-failing transfer leaves an unrelated
file untouched, reports failure, and leaves the destination absent. -/
theorem transfer_direct_write_amended_witness :
    (("unrelated.txt" : String) ≠
        get_local_filepath (output_filename_dmf c4Motion) (some c4Motion.start.date) →
      FS.get (processMotion c4CleanBeh 5 c4Motion c4CleanState).2.fs "unrelated.txt" =
        FS.get [("unrelated.txt", 3)] "unrelated.txt") ∧
    (processMotion c4CleanBeh 5 c4Motion c4CleanState).1.status = Status.failed ∧
    FS.isfile (processMotion c4CleanBeh 5 c4Motion c4CleanState).2.fs
      (get_local_filepath (output_filename_dmf c4Motion) (some c4Motion.start.date))
      = false :=
  transfer_direct_write_amended c4CleanBeh 5 c4Motion c4CleanState "unrelated.txt"
    (fun _ => rfl) (by decide)

/-! ### Claim C7: success without a written file -/

def c7ZeroBeh : Nat → FetchStep := fun _ => FetchStep.ret (some 0)

/-- Counterexample to C7 as stated: a fetch that reports success and writes zero bytes
(leaving an empty file at the destination, `FetchStep.ret (some 0)`) is accepted as a
success by `download_to_local_storage` — the `os.path.isfile` guard sees the empty file
— with an empty failure-classification log, so the attempt is not classified as an
Unexpected failure. -/
theorem success_zero_bytes_counterexample :
    (download_to_local_storage c7ZeroBeh "f.mp4" none 5 ⟨[], 0, []⟩).1 =
      some (get_local_filepath "f.mp4" none) ∧
    (download_to_local_storage c7ZeroBeh "f.mp4" none 5 ⟨[], 0, []⟩).2.classLog
      = [] := by
  constructor <;> decide

def c7Beh : Nat → FetchStep := fun _ => FetchStep.ret none

def c7State : TState := ⟨[], 0, []⟩

/-- Claim C7 (amended): a fetch attempt that reports success but leaves no file at the
destination raises `"Download completed but file not found"`, which the generic
`except Exception` branch classifies as Unexpected: the attempt counter advances, the
Unexpected classification is logged, and the download continues with the remaining
retry budget — such an attempt is never a success. -/
theorem success_without_file_unexpected : ∀ (beh : Nat → FetchStep)
    (output_filename : String) (date : Option Date) (fuel : Nat) (s : TState),
    FS.isfile s.fs (get_local_filepath output_filename date) = false →
    beh s.fetchCount = FetchStep.ret none →
    download_to_local_storage beh output_filename date (fuel + 1) s =
      dlAttempts beh (get_local_filepath output_filename date) fuel
        ⟨FS.set s.fs (get_local_filepath output_filename date) none,
          s.fetchCount + 1, s.classLog ++ [FailClass.unexpected]⟩ := by
  intro beh ofn date fuel s hA hstep
  rw [download_to_local_storage]
  simp only [hA, Bool.false_eq_true, if_false]
  simp only [dlAttempts, hstep]

/-- Witness for the amended C7: the first attempt of a 3-attempt budget returns
without a file; the run continues as the remaining 2 attempts from the bumped state
with `unexpected` logged. -/
theorem success_without_file_unexpected_witness :
    download_to_local_storage c7Beh "f.mp4" none 3 c7State =
      dlAttempts c7Beh (get_local_filepath "f.mp4" none) 2
        ⟨FS.set ([] : FS) (get_local_filepath "f.mp4" none) none, 0 + 1,
          ([] : List FailClass) ++ [FailClass.unexpected]⟩ :=
  success_without_file_unexpected c7Beh "f.mp4" none 2 c7State (by decide) rfl

end Reolink
